import Mathlib

/-!
Verification development for the Frenkeinstein booking client.

Shallow embedding of the appointment-booking and payment-confirmation core:
the service catalog, form validation, slot resolution, the booking submit
flow (`src/frontend/src/components/Appointment/BookingForm.jsx`), the
application state reducer (`src/frontend/src/context/AppContext.jsx`) and
the Stripe checkout flow
(`src/frontend/src/components/Payment/CheckoutForm.jsx`).

Network-bound collaborators (axios, Stripe, react-hook-form) are modelled
by explicit result/environment values: every remote call a flow would make
is recorded as a request value, and the remote response is an input of the
embedded function.
-/

namespace Frenkeinstein

/-- Static service catalog entry, from `serviceTypes` in `BookingForm.jsx`
(lines 10-16): `value`, `label`, `price`, `duration`. Prices and durations
in the source are integer literals, embedded as `Nat`. -/
structure ServiceOffering where
  value : String
  label : String
  price : Nat
  duration : Nat
deriving Repr, DecidableEq, Inhabited

/-- The `serviceTypes` array of `BookingForm.jsx`. -/
def serviceTypes : List ServiceOffering :=
  [ { value := "haircut", label := "Taglio di Capelli", price := 25, duration := 30 },
    { value := "beard_trim", label := "Sistemazione Barba", price := 15, duration := 20 },
    { value := "shave", label := "Rasatura", price := 20, duration := 25 },
    { value := "wash_and_cut", label := "Lavaggio e Taglio", price := 35, duration := 45 },
    { value := "styling", label := "Styling", price := 30, duration := 40 } ]

/-- `serviceTypes.find(s => s.value === watchedService)` from
`BookingForm.jsx` line 37. -/
def findService (code : String) : Option ServiceOffering :=
  serviceTypes.find? (fun s => s.value == code)

/-- A slot of the availability response
(`{ start_time, available }`, consumed in `BookingForm.jsx` lines 62 and
105-114). `start_time` is an ISO timestamp in the source; it is embedded
as an absolute instant in minutes, whose order is the timestamp order. -/
structure Slot where
  start_time : Nat
  available : Bool
deriving Repr, DecidableEq

/-- Appointment record as returned by the server and kept in the store
(`AppContext.jsx`, and the fields built in `BookingForm.jsx` lines 76-86
plus the server-assigned `id` and `status`). -/
structure Appointment where
  id : Nat
  customer_name : String
  customer_phone : String
  customer_email : Option String
  appointment_datetime : String
  service_type : String
  service_duration : Nat
  service_price : Nat
  notes : Option String
  requires_prepayment : Bool
  status : String
deriving Repr, DecidableEq, Inhabited

/-- The state object of `AppContext.jsx` (lines 7-15). The `user` payload
is opaque to the reducer; it is embedded as an optional string. -/
structure AppState where
  user : Option String
  appointments : List Appointment
  loading : Bool
  error : Option String
  currentBooking : Option Appointment
  availableSlots : List Slot
  voiceSupported : Bool
deriving Repr, DecidableEq

/-- `initialState` of `AppContext.jsx`. -/
def initialState : AppState :=
  { user := none, appointments := [], loading := false, error := none,
    currentBooking := none, availableSlots := [], voiceSupported := false }

/-- Dynamically-typed action payload. The action creators of
`AppContext.jsx` (lines 85-96) only ever dispatch the payload shape their
transition reads, so the coercing projections below are exact on every
dispatch the repository performs. -/
inductive Payload where
  | pbool (b : Bool)
  | pstr (s : String)
  | pnull
  | pappt (a : Appointment)
  | pappts (l : List Appointment)
  | pslots (l : List Slot)
deriving Repr, DecidableEq

def Payload.asBool : Payload → Bool
  | .pbool b => b
  | _ => false

def Payload.asOptString : Payload → Option String
  | .pstr s => some s
  | _ => none

def Payload.asAppt : Payload → Appointment
  | .pappt a => a
  | _ => default

def Payload.asAppts : Payload → List Appointment
  | .pappts l => l
  | _ => []

def Payload.asSlots : Payload → List Slot
  | .pslots l => l
  | _ => []

def Payload.asOptAppt : Payload → Option Appointment
  | .pappt a => some a
  | _ => none

/-- A dispatched action: a type string plus payload, as in
`dispatch({ type, payload })` of `AppContext.jsx`. -/
structure Action where
  type : String
  payload : Payload
deriving Repr, DecidableEq

/-- The `appReducer` switch of `AppContext.jsx` (lines 32-75), branch by
branch; the final `else` is the `default: return state` case. -/
def appReducer (state : AppState) (action : Action) : AppState :=
  if action.type = "SET_LOADING" then
    { state with loading := action.payload.asBool }
  else if action.type = "SET_ERROR" then
    { state with error := action.payload.asOptString, loading := false }
  else if action.type = "CLEAR_ERROR" then
    { state with error := none }
  else if action.type = "SET_USER" then
    { state with user := action.payload.asOptString }
  else if action.type = "SET_APPOINTMENTS" then
    { state with appointments := action.payload.asAppts }
  else if action.type = "ADD_APPOINTMENT" then
    { state with appointments := state.appointments ++ [action.payload.asAppt] }
  else if action.type = "UPDATE_APPOINTMENT" then
    { state with appointments := state.appointments.map (fun apt => if apt.id = action.payload.asAppt.id then action.payload.asAppt else apt) }
  else if action.type = "SET_CURRENT_BOOKING" then
    { state with currentBooking := action.payload.asOptAppt }
  else if action.type = "SET_AVAILABLE_SLOTS" then
    { state with availableSlots := action.payload.asSlots }
  else if action.type = "SET_VOICE_SUPPORTED" then
    { state with voiceSupported := action.payload.asBool }
  else
    state

/-- The ten type strings named in the `appReducer` switch. -/
def namedActionTypes : List String :=
  ["SET_LOADING", "SET_ERROR", "CLEAR_ERROR", "SET_USER", "SET_APPOINTMENTS",
   "ADD_APPOINTMENT", "UPDATE_APPOINTMENT", "SET_CURRENT_BOOKING",
   "SET_AVAILABLE_SLOTS", "SET_VOICE_SUPPORTED"]

/-- Action creator `setLoading` of `AppContext.jsx`. -/
def Actions.setLoading (b : Bool) : Action := ⟨"SET_LOADING", Payload.pbool b⟩

/-- Action creator `setError` of `AppContext.jsx`. -/
def Actions.setError (m : String) : Action := ⟨"SET_ERROR", Payload.pstr m⟩

/-- Action creator `clearError` of `AppContext.jsx`. -/
def Actions.clearError : Action := ⟨"CLEAR_ERROR", Payload.pnull⟩

/-- Action creator `addAppointment` of `AppContext.jsx`. -/
def Actions.addAppointment (a : Appointment) : Action := ⟨"ADD_APPOINTMENT", Payload.pappt a⟩

/-- Action creator `updateAppointment` of `AppContext.jsx`. -/
def Actions.updateAppointment (a : Appointment) : Action := ⟨"UPDATE_APPOINTMENT", Payload.pappt a⟩

/-- Action creator `setAvailableSlots` of `AppContext.jsx`. -/
def Actions.setAvailableSlots (l : List Slot) : Action := ⟨"SET_AVAILABLE_SLOTS", Payload.pslots l⟩

/-! ## Booking form: draft, validators, submit -/

/-- The form fields registered in `BookingForm.jsx`. In the source these
live in react-hook-form's field state; text inputs hold strings (empty
when untouched) and the prepayment checkbox a boolean. -/
structure FormData where
  customer_name : String
  customer_phone : String
  customer_email : String
  service_type : String
  appointment_date : String
  appointment_time : String
  notes : String
  requires_prepayment : Bool
deriving Repr, DecidableEq

/-- Validator of the `customer_name` registration (lines 146-149):
`required` then `minLength: 2`, with the messages of the source. -/
def validate_customer_name (v : String) : Option String :=
  if v = "" then some "Il nome è obbligatorio"
  else if v.length < 2 then some "Il nome deve essere di almeno 2 caratteri"
  else none

/-- Character class of the phone regex body of lines 166-169. -/
def phoneChar (c : Char) : Bool :=
  c.isDigit || c.isWhitespace || c == '-' || c == '(' || c == ')'

def phoneBody (cs : List Char) : Bool :=
  Nat.ble 10 cs.length && cs.all phoneChar

/-- Executable form of the phone regex of lines 166-169. An optional
leading plus, then at least ten characters drawn from digits, whitespace,
hyphen and parentheses; anchored at both ends. -/
def phonePattern (v : String) : Bool :=
  match v.data with
  | '+' :: rest => phoneBody rest
  | cs => phoneBody cs

/-- Validator of the `customer_phone` registration (lines 164-170):
`required` then the phone pattern. -/
def validate_customer_phone (v : String) : Option String :=
  if v = "" then some "Il numero di telefono è obbligatorio"
  else if phonePattern v then none
  else some "Inserisci un numero di telefono valido"

/-- Character class of the email local part (case-insensitive regex of
lines 186-190). -/
def localChar (c : Char) : Bool :=
  c.isAlphanum || c == '.' || c == '_' || c == '%' || c == '+' || c == '-'

/-- Character class of the email domain part. -/
def domainChar (c : Char) : Bool :=
  c.isAlphanum || c == '.' || c == '-'

/-- Matcher for the domain half of the email regex: a nonempty run of
domain characters, a dot, then at least two letters to the end. Because
the trailing letter run admits no dot, the regex split is necessarily at
the last dot, which is what this function checks. -/
def emailDomain (dom : String) : Bool :=
  let parts := dom.split (fun c => c == '.')
  let tld := parts.getLastD ""
  let d1 := String.intercalate "." parts.dropLast
  !d1.isEmpty && d1.data.all domainChar && Nat.ble 2 tld.length && tld.data.all Char.isAlpha

/-- Executable form of the email regex of lines 186-190. The character
classes of both halves exclude the at sign, hence exactly one at sign. -/
def emailPattern (v : String) : Bool :=
  match v.split (fun c => c == '@') with
  | [lp, dom] => !lp.isEmpty && lp.data.all localChar && emailDomain dom
  | _ => false

/-- Validator of the optional `customer_email` registration (lines
186-191): no `required` rule, and react-hook-form skips pattern rules on
an empty value, so the empty string passes. -/
def validate_customer_email (v : String) : Option String :=
  if v = "" then none
  else if emailPattern v then none
  else some "Inserisci un indirizzo email valido"

/-- Validator of the `service_type` registration (line 206): `required`. -/
def validate_service_type (v : String) : Option String :=
  if v = "" then some "Seleziona un servizio" else none

/-- Validator of the `appointment_date` registration (line 230): `required`. -/
def validate_appointment_date (v : String) : Option String :=
  if v = "" then some "Seleziona una data" else none

/-- Validator of the `appointment_time` registration (line 243): `required`. -/
def validate_appointment_time (v : String) : Option String :=
  if v = "" then some "Seleziona un orario" else none

/-- Field-scoped error entry of a single validator. -/
def fieldErr (field : String) (r : Option String) : List (String × String) :=
  match r with
  | some m => [(field, m)]
  | none => []

/-- All registered validators, each scoped to its field, in registration
order. `notes` and `requires_prepayment` are registered without rules. -/
def validateAll (d : FormData) : List (String × String) :=
  fieldErr "customer_name" (validate_customer_name d.customer_name) ++
  fieldErr "customer_phone" (validate_customer_phone d.customer_phone) ++
  fieldErr "customer_email" (validate_customer_email d.customer_email) ++
  fieldErr "service_type" (validate_service_type d.service_type) ++
  fieldErr "appointment_date" (validate_appointment_date d.appointment_date) ++
  fieldErr "appointment_time" (validate_appointment_time d.appointment_time)

/-- `data.appointment_date + 'T' + data.appointment_time` of line 80. The
source converts this to an ISO instant via `new Date(...).toISOString()`;
the combined fixed-format string is kept as the instant, its
lexicographic order being the chronological order. -/
def combineDateTime (date time : String) : String := date ++ "T" ++ time

/-- Body of the `POST /api/appointments` request built in `BookingForm.jsx`
lines 76-86. -/
structure AppointmentRequest where
  customer_name : String
  customer_phone : String
  customer_email : Option String
  appointment_datetime : String
  service_type : String
  service_duration : Nat
  service_price : Nat
  notes : Option String
  requires_prepayment : Bool
deriving Repr, DecidableEq

/-- The `appointmentData` object of lines 76-86: contact fields copied
from the form (empty optionals become null), the datetime combined from
the date and time fields, duration and price read from the selected
catalog entry. -/
def buildAppointmentData (d : FormData) (svc : ServiceOffering) : AppointmentRequest :=
  { customer_name := d.customer_name,
    customer_phone := d.customer_phone,
    customer_email := if d.customer_email = "" then none else some d.customer_email,
    appointment_datetime := combineDateTime d.appointment_date d.appointment_time,
    service_type := d.service_type,
    service_duration := svc.duration,
    service_price := svc.price,
    notes := if d.notes = "" then none else some d.notes,
    requires_prepayment := d.requires_prepayment }

/-- Query parameters of the availability request built in
`fetchAvailableSlots` (lines 48-60). -/
structure AvailabilityQuery where
  start_date : String
  end_date : String
  duration_minutes : Nat
deriving Repr, DecidableEq

/-- The window construction of lines 53-59: start and end are the given
date at 09:00:00 and 18:00:00, duration the selected service's. -/
def availabilityQuery (watchedDate : String) (durationMinutes : Nat) : AvailabilityQuery :=
  { start_date := watchedDate ++ "T09:00:00",
    end_date := watchedDate ++ "T18:00:00",
    duration_minutes := durationMinutes }

/-- A network request issued by the booking form. -/
inductive Request where
  | getAvailability (q : AvailabilityQuery)
  | createAppointment (r : AppointmentRequest)
deriving Repr, DecidableEq

/-- Outcome of the `apiService.appointments.create` call as the submit
handler observes it: the created record, or a failure whose
`error.response?.data?.detail` is `detail` (none when absent). -/
inductive CreateOutcome where
  | ok (created : Appointment)
  | err (detail : Option String)
deriving Repr, DecidableEq

/-- `error.response?.data?.detail || 'Errore nella creazione
dell'appuntamento'` of line 97; the or-else also replaces an empty detail
string, as the source's falsy check does. -/
def createErrorMessage : Option String → String
  | some d => if d = "" then "Errore nella creazione dell'appuntamento" else d
  | none => "Errore nella creazione dell'appuntamento"

/-- The `onSubmit` handler of lines 71-102 as the list of store actions it
dispatches and the network requests it issues, in order. When the catalog
lookup of the selected service fails, reading `.duration` of `undefined`
throws before the create call; the `catch` then dispatches the generic
error, so no request is issued on that path. -/
def onSubmitSteps (d : FormData) (res : CreateOutcome) : List Action × List Request :=
  match findService d.service_type with
  | none =>
      ([Actions.setLoading true, Actions.clearError,
        Actions.setError (createErrorMessage none), Actions.setLoading false], [])
  | some svc =>
      match res with
      | CreateOutcome.ok created =>
          ([Actions.setLoading true, Actions.clearError, Actions.addAppointment created,
            Actions.setLoading false],
           [Request.createAppointment (buildAppointmentData d svc)])
      | CreateOutcome.err detail =>
          ([Actions.setLoading true, Actions.clearError,
            Actions.setError (createErrorMessage detail), Actions.setLoading false],
           [Request.createAppointment (buildAppointmentData d svc)])

/-- Store state after `onSubmit` ran to completion. -/
def onSubmitRun (s : AppState) (d : FormData) (res : CreateOutcome) : AppState :=
  List.foldl appReducer s (onSubmitSteps d res).1

/-- Network requests `onSubmit` issued. -/
def onSubmitRequests (d : FormData) (res : CreateOutcome) : List Request :=
  (onSubmitSteps d res).2

/-- The form submission path `handleSubmit(onSubmit)` of line 137. Models
react-hook-form's `handleSubmit` contract: it runs every registered
validator and invokes the wrapped `onSubmit` only when no field has an
error; otherwise it records the field errors and `onSubmit` never runs,
so no store action is dispatched and no request is issued. -/
def handleSubmitRun (s : AppState) (d : FormData) (res : CreateOutcome) : AppState × List Request :=
  if validateAll d = [] then (onSubmitRun s d res, onSubmitRequests d res)
  else (s, [])

/-! ## Slot rendering and fetch -/

/-- Two-digit zero padding of `format(time, 'HH:mm')`. -/
def pad2 (n : Nat) : String :=
  if n < 10 then "0" ++ toString n else toString n

/-- `format(new Date(slot.start_time), 'HH:mm')` on the minute-valued
instant embedding. -/
def formatHM (t : Nat) : String :=
  pad2 (t % 1440 / 60) ++ ":" ++ pad2 (t % 60)

/-- Element of the `timeSlots` array of lines 105-114. -/
structure UiSlot where
  value : String
  label : String
  datetime : Nat
deriving Repr, DecidableEq

/-- The `timeSlots` derivation of lines 105-114: filter the fetched slots
to the available ones, then map each to its rendered option. -/
def timeSlots (availableSlots : List Slot) : List UiSlot :=
  (availableSlots.filter (fun slot => slot.available)).map
    (fun slot =>
      { value := formatHM slot.start_time,
        label := formatHM slot.start_time,
        datetime := slot.start_time })

/-- `response.data.available_slots || []` of line 62: a missing or null
field becomes the empty list. -/
def parseAvailableSlots (field : Option (List Slot)) : List Slot := field.getD []

/-- Result of the availability request as `fetchAvailableSlots` observes
it: success carrying the possibly-absent `available_slots` field, or a
thrown failure. -/
inductive AvailabilityResult where
  | ok (available_slots : Option (List Slot))
  | err
deriving Repr, DecidableEq

/-- The `fetchAvailableSlots` handler of lines 48-69: store state and the
component's local slot list after the run. On success the slots state is
replaced by the parsed field and the global error is untouched; on
failure the generic message is set and the local slots keep their prior
value. Both paths clear loading in `finally`. -/
def fetchAvailableSlotsRun (s : AppState) (prevSlots : List Slot) (r : AvailabilityResult) :
    AppState × List Slot :=
  match r with
  | AvailabilityResult.ok field =>
      (appReducer (appReducer s (Actions.setLoading true)) (Actions.setLoading false),
       parseAvailableSlots field)
  | AvailabilityResult.err =>
      (appReducer (appReducer (appReducer s (Actions.setLoading true))
          (Actions.setError "Errore nel caricamento degli orari disponibili"))
        (Actions.setLoading false),
       prevSlots)

/-- `format(addDays(new Date(), 1), 'yyyy-MM-dd')` of line 117 at day
granularity: the minimum selectable day is the day after the current one. -/
def minDateDay (nowDay : Nat) : Nat := nowDay + 1

/-- An absolute instant from a day index and a minute of that day, the
combination `new Date(date + 'T' + time)` performs. -/
def instantOfDayMin (day minute : Nat) : Nat := day * 1440 + minute

/-- Lexicographic order on character lists, the order of equal-format ISO
strings. -/
def lexLt : List Char → List Char → Bool
  | _, [] => false
  | [], _ :: _ => true
  | a :: as, b :: bs => if a < b then true else if b < a then false else lexLt as bs

/-- Instant comparison on the fixed-format combined strings of
`combineDateTime`: not strictly after. -/
def isoLe (a b : String) : Bool := a == b || lexLt a.data b.data

/-! ## Stripe checkout -/

/-- Local state of `CheckoutForm` (lines 16-17): the `isProcessing` flag
and the user-facing `message`. -/
structure CheckoutState where
  isProcessing : Bool
  message : Option String
deriving Repr, DecidableEq

def initialCheckout : CheckoutState := { isProcessing := false, message := none }

/-- Result of `stripe.confirmPayment` as `handleSubmit` branches on it
(lines 41-75): an error object, a succeeded intent, an intent in another
status (redirect handled out of band), or a thrown exception. -/
inductive PayOutcome where
  | succeeded
  | failed (msg : String)
  | pendingRedirect
  | thrown
deriving Repr, DecidableEq

/-- External responses one `handleSubmit` invocation observes:
`intentResult` is the `client_secret` of the create-intent call (none
when that call throws), `outcome` the confirm result when reached. -/
structure PayEnv where
  intentResult : Option String
  outcome : PayOutcome
deriving Repr, DecidableEq

/-- A request to the payment backend or processor. -/
inductive PayReq where
  | createIntent (amount : Nat) (appointmentId : Nat)
  | confirm (handle : String)
deriving Repr, DecidableEq

def isConfirm : PayReq → Bool
  | PayReq.confirm _ => true
  | _ => false

/-- The `handleSubmit` handler of `CheckoutForm.jsx` (lines 20-86): when
Stripe is not ready it returns early with no request; otherwise it always
creates a fresh payment intent, then confirms that intent's secret,
setting the message per outcome and resetting `isProcessing` in
`finally`. Nothing of a previous attempt's outcome is consulted. -/
def handleSubmit (ready : Bool) (appt : Appointment) (env : PayEnv) (st : CheckoutState) :
    CheckoutState × List PayReq :=
  if ready then
    match env.intentResult with
    | none =>
        ({ isProcessing := false,
           message := some "Si è verificato un errore durante il pagamento." },
         [PayReq.createIntent appt.service_price appt.id])
    | some secret =>
        let reqs := [PayReq.createIntent appt.service_price appt.id, PayReq.confirm secret]
        match env.outcome with
        | PayOutcome.succeeded =>
            ({ isProcessing := false,
               message := some "Pagamento completato con successo! 🎉" }, reqs)
        | PayOutcome.failed m =>
            ({ isProcessing := false, message := some m }, reqs)
        | PayOutcome.pendingRedirect =>
            ({ isProcessing := false, message := none }, reqs)
        | PayOutcome.thrown =>
            ({ isProcessing := false,
               message := some "Si è verificato un errore durante il pagamento." }, reqs)
  else (st, [])

/-- A sequence of `handleSubmit` invocations: final checkout state and the
concatenated request trace. -/
def runCheckout (ready : Bool) (appt : Appointment) (st : CheckoutState) :
    List PayEnv → CheckoutState × List PayReq
  | [] => (st, [])
  | e :: es =>
      let step := handleSubmit ready appt e st
      let rest := runCheckout ready appt step.1 es
      (rest.1, step.2 ++ rest.2)

/-! ## Concrete sample data for witnesses -/

/-- The Scenario A draft of the spec, as form data. -/
def sampleDraft : FormData :=
  { customer_name := "Mario Rossi", customer_phone := "+39 123 456 7890",
    customer_email := "", service_type := "haircut",
    appointment_date := "2026-10-12", appointment_time := "10:00",
    notes := "", requires_prepayment := false }

/-- The sample draft with a clearly past date. -/
def pastDraft : FormData :=
  { sampleDraft with appointment_date := "2020-01-01" }

/-- The sample draft with the phone of Scenario E. -/
def abcDraft : FormData :=
  { sampleDraft with customer_phone := "abc" }

/-- A server-created appointment for the sample draft. -/
def sampleAppointment : Appointment :=
  { id := 1, customer_name := "Mario Rossi", customer_phone := "+39 123 456 7890",
    customer_email := none, appointment_datetime := "2026-10-12T10:00",
    service_type := "haircut", service_duration := 30, service_price := 25,
    notes := none, requires_prepayment := false, status := "pending" }

/-! ## Theorems -/

/-- Pointwise replacement is the identity on a list none of whose entries
carries the replaced id. -/
theorem map_update_id_eq_self (a : Appointment) :
    ∀ l : List Appointment, (∀ apt ∈ l, apt.id ≠ a.id) →
      l.map (fun apt => if apt.id = a.id then a else apt) = l := by
  intro l hl
  induction l with
  | nil => rfl
  | cons x xs ih =>
    simp only [List.map_cons]
    rw [if_neg (hl x (List.mem_cons_self x xs))]
    rw [ih (fun apt h => hl apt (List.mem_cons_of_mem x h))]

/-- Claim C9: the state-store reducer maps any dispatched action whose type
is not one of the named transition kinds to the unchanged state; every
field (appointments, currentBooking, loading, error, availableSlots,
voiceSupported, user) is exactly as before, so an unrecognized transition
is a no-op. -/
theorem appReducer_unknown_noop (s : AppState) (t : String) (p : Payload)
    (ht : t ∉ namedActionTypes) :
    appReducer s ⟨t, p⟩ = s
      ∧ (appReducer s ⟨t, p⟩).appointments = s.appointments
      ∧ (appReducer s ⟨t, p⟩).currentBooking = s.currentBooking
      ∧ (appReducer s ⟨t, p⟩).loading = s.loading
      ∧ (appReducer s ⟨t, p⟩).error = s.error
      ∧ (appReducer s ⟨t, p⟩).availableSlots = s.availableSlots
      ∧ (appReducer s ⟨t, p⟩).voiceSupported = s.voiceSupported
      ∧ (appReducer s ⟨t, p⟩).user = s.user := by
  have h : appReducer s ⟨t, p⟩ = s := by
    simp only [namedActionTypes, List.mem_cons, List.not_mem_nil, or_false, not_or] at ht
    obtain ⟨h1, h2, h3, h4, h5, h6, h7, h8, h9, h10⟩ := ht
    simp [appReducer, h1, h2, h3, h4, h5, h6, h7, h8, h9, h10]
  exact ⟨h, by rw [h], by rw [h], by rw [h], by rw [h], by rw [h], by rw [h], by rw [h]⟩

/-- The unknown-action no-op at a concrete unrecognized type string. -/
theorem appReducer_unknown_noop_witness :
    appReducer initialState ⟨"RESET", Payload.pnull⟩ = initialState :=
  (appReducer_unknown_noop initialState "RESET" Payload.pnull (by decide)).1

/-- Claim C4: the update-appointment-by-id transition rewrites the
appointment list pointwise, substituting the payload for exactly the
entries whose id equals the payload's id and leaving every other entry
unchanged in place, so length and order are preserved; and when no entry
carries that id the transition is a no-op on the whole state. -/
theorem updateAppointment_replaces_by_id (s : AppState) (a : Appointment) :
    (appReducer s (Actions.updateAppointment a)).appointments
        = s.appointments.map (fun apt => if apt.id = a.id then a else apt)
      ∧ (appReducer s (Actions.updateAppointment a)).appointments.length
        = s.appointments.length
      ∧ ((∀ apt ∈ s.appointments, apt.id ≠ a.id) →
          appReducer s (Actions.updateAppointment a) = s) := by
  have hmap : (appReducer s (Actions.updateAppointment a)).appointments
      = s.appointments.map (fun apt => if apt.id = a.id then a else apt) := by
    simp [appReducer, Actions.updateAppointment, Payload.asAppt]
  refine ⟨hmap, by rw [hmap, List.length_map], ?_⟩
  intro hid
  have hself := map_update_id_eq_self a s.appointments hid
  simp [appReducer, Actions.updateAppointment, Payload.asAppt, hself]

/-- The update transition at a concrete state holding one appointment and a
payload whose id is absent: the state is returned unchanged. -/
theorem updateAppointment_replaces_by_id_witness :
    appReducer { initialState with appointments := [sampleAppointment] }
        (Actions.updateAppointment { sampleAppointment with id := 2 })
      = { initialState with appointments := [sampleAppointment] } :=
  (updateAppointment_replaces_by_id { initialState with appointments := [sampleAppointment] }
    { sampleAppointment with id := 2 }).2.2 (by decide)

/-- Claim C3: every element of the `timeSlots` sequence the slot resolver
derives originates from a fetched slot marked available (slots marked
unavailable are filtered out), and when no fetched slot is available the
result is the empty sequence rather than an error. -/
theorem timeSlots_only_available (slots : List Slot) :
    (∀ u ∈ timeSlots slots, ∃ s, s ∈ slots ∧ s.available = true ∧ u.datetime = s.start_time)
      ∧ ((∀ s ∈ slots, s.available = false) → timeSlots slots = []) := by
  constructor
  · intro u hu
    simp only [timeSlots, List.mem_map, List.mem_filter] at hu
    obtain ⟨s, ⟨hs, hav⟩, rfl⟩ := hu
    exact ⟨s, hs, hav, rfl⟩
  · intro h
    have hnil : slots.filter (fun slot => slot.available) = [] := by
      rw [List.filter_eq_nil_iff]
      intro a ha
      simp [h a ha]
    rw [timeSlots, hnil]
    rfl

/-- The resolver at a concrete response whose only slot is unavailable:
the produced sequence is empty. -/
theorem timeSlots_only_available_witness :
    timeSlots [{ start_time := 540, available := false }] = [] :=
  (timeSlots_only_available [{ start_time := 540, available := false }]).2 (by decide)

/-- Claim C10: when the availability query succeeds but the response body
carries no `available_slots` field, the resolver stores the empty slot
list, the derived selectable time-slot sequence is empty, the store's
error field is untouched and loading is cleared. -/
theorem missing_available_slots_defaults_empty (s : AppState) (prev : List Slot) :
    (fetchAvailableSlotsRun s prev (AvailabilityResult.ok none)).2 = []
      ∧ timeSlots (fetchAvailableSlotsRun s prev (AvailabilityResult.ok none)).2 = []
      ∧ (fetchAvailableSlotsRun s prev (AvailabilityResult.ok none)).1.error = s.error
      ∧ (fetchAvailableSlotsRun s prev (AvailabilityResult.ok none)).1.loading = false := by
  refine ⟨rfl, rfl, ?_, ?_⟩
  · simp [fetchAvailableSlotsRun, appReducer, Actions.setLoading]
  · simp [fetchAvailableSlotsRun, appReducer, Actions.setLoading, Payload.asBool]

/-- A field's error chunk is empty exactly when its validator passed. -/
theorem fieldErr_eq_nil {f : String} {r : Option String} (h : fieldErr f r = []) : r = none := by
  cases r with
  | none => rfl
  | some m => simp [fieldErr] at h

/-- An empty validation result means every registered validator passed. -/
theorem validateAll_parts (d : FormData) (h : validateAll d = []) :
    validate_customer_name d.customer_name = none
      ∧ validate_customer_phone d.customer_phone = none
      ∧ validate_customer_email d.customer_email = none
      ∧ validate_service_type d.service_type = none
      ∧ validate_appointment_date d.appointment_date = none
      ∧ validate_appointment_time d.appointment_time = none := by
  rw [validateAll] at h
  cases h1 : validate_customer_name d.customer_name <;>
    cases h2 : validate_customer_phone d.customer_phone <;>
    cases h3 : validate_customer_email d.customer_email <;>
    cases h4 : validate_service_type d.service_type <;>
    cases h5 : validate_appointment_date d.appointment_date <;>
    cases h6 : validate_appointment_time d.appointment_time <;>
    simp_all [fieldErr]

/-- Claim C6: when the booking-creation network call fails, `onSubmit` adds
no appointment to the store's list, populates the store's error field with
a nonempty human-readable message, clears the loading flag, and leaves the
current booking untouched for resubmission; the single request issued was
the create call itself. -/
theorem onSubmit_failure_state (s : AppState) (d : FormData) (svc : ServiceOffering)
    (detail : Option String) (hs : findService d.service_type = some svc) :
    (onSubmitRun s d (CreateOutcome.err detail)).appointments = s.appointments
      ∧ (onSubmitRun s d (CreateOutcome.err detail)).error = some (createErrorMessage detail)
      ∧ createErrorMessage detail ≠ ""
      ∧ (onSubmitRun s d (CreateOutcome.err detail)).loading = false
      ∧ (onSubmitRun s d (CreateOutcome.err detail)).currentBooking = s.currentBooking
      ∧ onSubmitRequests d (CreateOutcome.err detail)
        = [Request.createAppointment (buildAppointmentData d svc)] := by
  have hmsg : createErrorMessage detail ≠ "" := by
    cases detail with
    | none => simp [createErrorMessage]
    | some x =>
      simp only [createErrorMessage]
      split
      · simp
      · assumption
  refine ⟨?_, ?_, hmsg, ?_, ?_, ?_⟩ <;>
    simp [onSubmitRun, onSubmitSteps, onSubmitRequests, hs, appReducer,
      Actions.setLoading, Actions.clearError, Actions.setError,
      Payload.asBool, Payload.asOptString, List.foldl_cons, List.foldl_nil]

/-- The failure path at a concrete state and draft: the error message is
set and the appointment list stays empty. -/
theorem onSubmit_failure_state_witness :
    (onSubmitRun initialState sampleDraft (CreateOutcome.err none)).error
        = some "Errore nella creazione dell'appuntamento"
      ∧ (onSubmitRun initialState sampleDraft (CreateOutcome.err none)).appointments = [] :=
  ⟨(onSubmit_failure_state initialState sampleDraft
      ⟨"haircut", "Taglio di Capelli", 25, 30⟩ none rfl).2.1,
   (onSubmit_failure_state initialState sampleDraft
      ⟨"haircut", "Taglio di Capelli", 25, 30⟩ none rfl).1⟩

/-- Claim C5: for a draft whose service code resolves in the catalog, the
create request built by submit carries the catalog entry's duration and
price (the form collects no client-supplied price or duration), and an
appointment datetime combining the draft's date and time; a draft with
service `haircut` yields price 25 and duration 30. -/
theorem buildAppointmentData_from_catalog (d : FormData) (svc : ServiceOffering)
    (res : CreateOutcome) (hs : findService d.service_type = some svc) :
    (buildAppointmentData d svc).service_duration = svc.duration
      ∧ (buildAppointmentData d svc).service_price = svc.price
      ∧ (buildAppointmentData d svc).appointment_datetime
        = combineDateTime d.appointment_date d.appointment_time
      ∧ onSubmitRequests d res = [Request.createAppointment (buildAppointmentData d svc)]
      ∧ (d.service_type = "haircut" → svc.price = 25 ∧ svc.duration = 30) := by
  refine ⟨rfl, rfl, rfl, ?_, ?_⟩
  · cases res <;> simp [onSubmitRequests, onSubmitSteps, hs]
  · intro hh
    rw [hh] at hs
    have h2 : (⟨"haircut", "Taglio di Capelli", 25, 30⟩ : ServiceOffering) = svc :=
      Option.some.inj ((show findService "haircut"
          = some ⟨"haircut", "Taglio di Capelli", 25, 30⟩ by decide).symm.trans hs)
    rw [← h2]
    exact ⟨rfl, rfl⟩

/-- The catalog transformation at the Scenario A draft: price 25, duration
30, and the combined datetime. -/
theorem buildAppointmentData_from_catalog_witness :
    (buildAppointmentData sampleDraft ⟨"haircut", "Taglio di Capelli", 25, 30⟩).service_price = 25
      ∧ (buildAppointmentData sampleDraft
          ⟨"haircut", "Taglio di Capelli", 25, 30⟩).service_duration = 30
      ∧ (buildAppointmentData sampleDraft
          ⟨"haircut", "Taglio di Capelli", 25, 30⟩).appointment_datetime
        = combineDateTime "2026-10-12" "10:00" :=
  ⟨(buildAppointmentData_from_catalog sampleDraft ⟨"haircut", "Taglio di Capelli", 25, 30⟩
      (CreateOutcome.ok sampleAppointment) rfl).2.1,
   (buildAppointmentData_from_catalog sampleDraft ⟨"haircut", "Taglio di Capelli", 25, 30⟩
      (CreateOutcome.ok sampleAppointment) rfl).1,
   (buildAppointmentData_from_catalog sampleDraft ⟨"haircut", "Taglio di Capelli", 25, 30⟩
      (CreateOutcome.ok sampleAppointment) rfl).2.2.1⟩

/-- Claim C2: the booking submitter issues no network call unless every
registered local validation passed (nonempty name of minimum length,
phone-shaped phone, syntactically valid optional email, selected date and
time, and a service code known to the catalog); and a draft with
customer phone `abc` yields a validation error scoped to the
customer-phone field and no network call. -/
theorem submit_validates_before_network (s : AppState) (d : FormData) (res : CreateOutcome) :
    ((handleSubmitRun s d res).2 ≠ [] →
        validate_customer_name d.customer_name = none
      ∧ validate_customer_phone d.customer_phone = none
      ∧ validate_customer_email d.customer_email = none
      ∧ validate_appointment_date d.appointment_date = none
      ∧ validate_appointment_time d.appointment_time = none
      ∧ ∃ svc ∈ serviceTypes, svc.value = d.service_type)
    ∧ (d.customer_phone = "abc" →
        ("customer_phone", "Inserisci un numero di telefono valido") ∈ validateAll d
      ∧ (handleSubmitRun s d res).2 = []) := by
  constructor
  · intro hne
    by_cases hv : validateAll d = []
    · obtain ⟨c1, c2, c3, _, c5, c6⟩ := validateAll_parts d hv
      have hreq : (handleSubmitRun s d res).2 = onSubmitRequests d res := by
        simp [handleSubmitRun, hv]
      refine ⟨c1, c2, c3, c5, c6, ?_⟩
      rw [hreq] at hne
      cases hfind : findService d.service_type with
      | none => simp [onSubmitRequests, onSubmitSteps, hfind] at hne
      | some svc =>
        refine ⟨svc, List.mem_of_find?_eq_some hfind, ?_⟩
        have := List.find?_some hfind
        simpa using this
    · simp [handleSubmitRun, hv] at hne
  · intro hp
    have hval : validate_customer_phone d.customer_phone
        = some "Inserisci un numero di telefono valido" := by
      rw [hp]; decide
    have hmem : ("customer_phone", "Inserisci un numero di telefono valido") ∈ validateAll d := by
      simp only [validateAll, List.mem_append]
      refine Or.inl (Or.inl (Or.inl (Or.inl (Or.inr ?_))))
      rw [hval]
      simp [fieldErr]
    have hvne : validateAll d ≠ [] := List.ne_nil_of_mem hmem
    exact ⟨hmem, by simp [handleSubmitRun, hvne]⟩

/-- Scenario E at the concrete draft with phone `abc`: the error is scoped
to the customer-phone field and the request list is empty. -/
theorem submit_validates_before_network_witness :
    ("customer_phone", "Inserisci un numero di telefono valido") ∈ validateAll abcDraft
      ∧ (handleSubmitRun initialState abcDraft (CreateOutcome.ok sampleAppointment)).2 = [] :=
  (submit_validates_before_network initialState abcDraft
    (CreateOutcome.ok sampleAppointment)).2 rfl

/-- Claim C7 as stated fails on the code: the registered submit-time
validators only require that a date and a time were selected, so a draft
whose date and time combine to an instant well before now passes every
validation and the create request is issued. -/
theorem submit_accepts_past_instant :
    isoLe (combineDateTime pastDraft.appointment_date pastDraft.appointment_time)
        "2026-10-11T12:00" = true
      ∧ validateAll pastDraft = []
      ∧ (handleSubmitRun initialState pastDraft (CreateOutcome.ok sampleAppointment)).2 ≠ [] := by
  refine ⟨by decide, by decide, by decide⟩

/-- Claim C7 amended: submit performs no comparison of the draft's instant
against the current time; the only temporal guard is the date input's
minimum attribute, the day after the current one, and every draft whose
date respects that minimum combines with any time of day to an instant
strictly after now. -/
theorem minDate_guard_future_instant (d t nowDay nowMin : Nat)
    (hm : nowMin < 1440) (hd : minDateDay nowDay ≤ d) :
    instantOfDayMin nowDay nowMin < instantOfDayMin d t := by
  unfold minDateDay at hd
  unfold instantOfDayMin
  omega

/-- The minimum-date guard at concrete day numbers: noon today is strictly
before midnight of the earliest selectable day. -/
theorem minDate_guard_future_instant_witness :
    instantOfDayMin 20738 720 < instantOfDayMin 20739 0 :=
  minDate_guard_future_instant 20739 0 20738 720 (by decide) (by decide)

/-- Each checkout invocation confirms exactly the secret its own
create-intent call returned, so the number of confirm requests a run
issues for a handle equals that handle's number of occurrences among the
returned secrets. -/
theorem runCheckout_confirm_count (appt : Appointment) (h : String) :
    ∀ (envs : List PayEnv) (st : CheckoutState),
      ((runCheckout true appt st envs).2.count (PayReq.confirm h))
        = ((envs.filterMap PayEnv.intentResult).count h) := by
  intro envs
  induction envs with
  | nil => intro st; simp [runCheckout]
  | cons e es ih =>
    intro st
    cases hi : e.intentResult with
    | none =>
      simp [runCheckout, handleSubmit, hi, List.count_append, List.count_cons,
        List.filterMap_cons, ih, beq_iff_eq]
    | some secret =>
      cases ho : e.outcome <;>
        simp [runCheckout, handleSubmit, hi, ho, List.count_append, List.count_cons,
          List.filterMap_cons, ih, beq_iff_eq, PayReq.confirm.injEq]

/-- Claim C1 as stated fails on the code: after an invocation whose
confirm reached the terminal Succeeded outcome, a second submit is not
refused; the flow issues a new create-intent request and a further
confirm request, and the checkout state retains only a message, no
terminal outcome per handle. -/
theorem checkout_reentry_not_refused :
    (runCheckout true sampleAppointment initialCheckout
        [⟨some "sec_1", PayOutcome.succeeded⟩, ⟨some "sec_2", PayOutcome.succeeded⟩]).2
      = [PayReq.createIntent 25 1, PayReq.confirm "sec_1",
         PayReq.createIntent 25 1, PayReq.confirm "sec_2"]
      ∧ ((runCheckout true sampleAppointment initialCheckout
          [⟨some "sec_1", PayOutcome.succeeded⟩,
           ⟨some "sec_2", PayOutcome.succeeded⟩]).2.countP isConfirm) = 2
      ∧ (runCheckout true sampleAppointment initialCheckout
          [⟨some "sec_1", PayOutcome.succeeded⟩]).1.message
        = some "Pagamento completato con successo! 🎉" := by
  refine ⟨by decide, by decide, by decide⟩

/-- Claim C1 amended: the checkout flow records no terminal outcome and
does not refuse re-entry; every invocation creates a fresh payment intent
and confirms only the secret created by that same invocation, so whenever
the processor returns pairwise distinct secrets no authorization handle
receives a second confirm request. -/
theorem confirm_at_most_once_per_handle (appt : Appointment) (st : CheckoutState)
    (envs : List PayEnv) (h : String)
    (hnd : (envs.filterMap PayEnv.intentResult).Nodup) :
    ((runCheckout true appt st envs).2.count (PayReq.confirm h)) ≤ 1 := by
  rw [runCheckout_confirm_count appt h envs st]
  exact List.nodup_iff_count_le_one.mp hnd h

/-- The per-handle bound on a concrete two-invocation run with distinct
secrets. -/
theorem confirm_at_most_once_per_handle_witness :
    ((runCheckout true sampleAppointment initialCheckout
        [⟨some "sec_a", PayOutcome.succeeded⟩,
         ⟨some "sec_b", PayOutcome.failed "declined"⟩]).2.count
      (PayReq.confirm "sec_a")) ≤ 1 :=
  confirm_at_most_once_per_handle sampleAppointment initialCheckout
    [⟨some "sec_a", PayOutcome.succeeded⟩, ⟨some "sec_b", PayOutcome.failed "declined"⟩]
    "sec_a" (by decide)

/-- Claim C8's ordering half fails on the code: the resolver performs no
sort and preserves the remote response's order, so a response listing an
available later slot before an available earlier one yields a sequence
that is not ascending by start instant. -/
theorem availability_order_counterexample :
    (timeSlots [⟨600, true⟩, ⟨540, true⟩]).map UiSlot.datetime = [600, 540]
      ∧ ¬ List.Pairwise (fun a b => a ≤ b)
          ((timeSlots [⟨600, true⟩, ⟨540, true⟩]).map UiSlot.datetime) := by
  have h1 : (timeSlots [⟨600, true⟩, ⟨540, true⟩]).map UiSlot.datetime = [600, 540] := by
    decide
  refine ⟨h1, ?_⟩
  rw [h1]
  intro hp
  have h600 : (600 : Nat) ≤ 540 := (List.pairwise_cons.mp hp).1 540 (by simp)
  omega

/-- Claim C8 amended: the availability request covers exactly the
09:00-18:00 window of the given date at the selected service's duration,
and the derived slot sequence preserves the remote source's order, so it
is ascending by start instant whenever the response is. -/
theorem availability_window_and_order (date : String) (dur : Nat) (slots : List Slot)
    (hs : List.Pairwise (fun a b => a.start_time ≤ b.start_time) slots) :
    (availabilityQuery date dur).start_date = date ++ "T09:00:00"
      ∧ (availabilityQuery date dur).end_date = date ++ "T18:00:00"
      ∧ (availabilityQuery date dur).duration_minutes = dur
      ∧ List.Pairwise (fun a b => a ≤ b) ((timeSlots slots).map UiSlot.datetime) := by
  refine ⟨rfl, rfl, rfl, ?_⟩
  rw [timeSlots, List.map_map, List.pairwise_map]
  exact List.Pairwise.sublist (List.filter_sublist _) hs

/-- The window and order preservation at a concrete date and a sorted
concrete response. -/
theorem availability_window_and_order_witness :
    (availabilityQuery "2026-10-12" 30).start_date = "2026-10-12" ++ "T09:00:00"
      ∧ (availabilityQuery "2026-10-12" 30).end_date = "2026-10-12" ++ "T18:00:00"
      ∧ (availabilityQuery "2026-10-12" 30).duration_minutes = 30
      ∧ List.Pairwise (fun a b => a ≤ b)
          ((timeSlots [⟨540, true⟩, ⟨600, false⟩, ⟨660, true⟩]).map UiSlot.datetime) :=
  availability_window_and_order "2026-10-12" 30 [⟨540, true⟩, ⟨600, false⟩, ⟨660, true⟩]
    (by decide)

end Frenkeinstein
